import Mathlib

/-!
Verification of the real-time face-overlay pipeline of this repository.

The TypeScript sources are shallowly embedded:
* JS numbers are modelled as exact rationals (`ℚ`); `Math.round x` becomes
  `⌊x + 1/2⌋`, `Math.min`/`Math.max` become `min`/`max`.
* Untyped JSON values reaching the sanitizers are modelled by the inductive
  type `JVal`; JS property access (which yields `undefined` on absence or on
  primitives) is `jGet`, truthiness is `truthy`.
* `Date.now()` is passed in as an explicit `now` argument.
* `JSON.parse` and `Number(string)` are platform builtins; `Number(string)`
  is modelled by `strToNum`, a plain decimal parser (sign, digits, optional
  fraction), and `JSON.parse` by an explicit `parse` parameter where needed.
  None of the theorems below depend on the values these builtins return.
* `Array.prototype.sort(cmp)` (a stable sort since ES2019) is modelled by the
  stable insertion sort `jsSortBy (fun a b => cmp a b ≤ 0)`.

Sources embedded: `src/services/tracking/anchorFusion.ts` (fusion engine and
the model-gate / fallback orchestrator / sanitizers appended to it),
`src/services/overlay/smoothing.ts` (label layout engine), and the shared
type declarations.
-/

namespace UFI

/- Batteries marks the `Rat` field operations `@[irreducible]`; restore
definitional reducibility inside this file so that concrete runs of the
embedded functions can be settled by `decide`. -/
attribute [local semireducible] Rat.add Rat.sub Rat.mul Rat.inv Rat.ofScientific

/-- `NormalizedPoint = [y, x]` in 0..1000 space (y first, as in the source). -/
abbrev NormalizedPoint := ℚ × ℚ

/-- `[ymin, xmin, ymax, xmax]`. -/
abbrev NormalizedFaceBox := ℚ × ℚ × ℚ × ℚ

/-- `clamp` from the sources: `Math.min(max, Math.max(min, value))`. -/
def clampQ (value lo hi : ℚ) : ℚ := min hi (max lo value)

/-- `Math.round` on an exact rational: round half up. -/
def jsRound (q : ℚ) : ℚ := ((⌊q + 1/2⌋ : ℤ) : ℚ)

/-- `Math.round` returning an integer (used for percentage text). -/
def jsRoundInt (q : ℚ) : ℤ := ⌊q + 1/2⌋

/-- `String.prototype.trim`, via the character list (kernel-reducible). -/
def jsTrim (s : String) : String :=
  String.mk (((s.data.dropWhile Char.isWhitespace).reverse.dropWhile
    Char.isWhitespace).reverse)

/-- `String.prototype.toLowerCase`, via the character list. -/
def jsToLower (s : String) : String :=
  String.mk (s.data.map Char.toLower)

/-- `String.prototype.slice(0, n)`, via the character list. -/
def jsTake (s : String) (n : Nat) : String :=
  String.mk (s.data.take n)

/-! ### Untyped JS values at the sanitizer boundary -/

/-- An untyped JS value as seen by the sanitizers. `jundefined` is JS `undefined`
(the result of accessing a missing property); `jnan` stands for the
non-finite numbers (`NaN`, `±Infinity`), which `Number.isFinite` rejects. -/
inductive JVal where
  | jnull
  | jundefined
  | jbool (b : Bool)
  | jnum (q : ℚ)
  | jnan
  | jstr (s : String)
  | arr (items : List JVal)
  | obj (fields : List (String × JVal))
deriving Repr

/-- JS truthiness (`Boolean(v)`). Empty arrays and objects are truthy. -/
def truthy : JVal → Bool
  | .jnull => false
  | .jundefined => false
  | .jbool b => b
  | .jnum q => q != 0
  | .jnan => false
  | .jstr s => s != ""
  | .arr _ => true
  | .obj _ => true

/-- `value && typeof value === "object"`: a truthy object or array
(`null` is `typeof "object"` but falsy). -/
def isObjLike : JVal → Bool
  | .obj _ => true
  | .arr _ => true
  | _ => false

/-- JS property access `v?.k` / `v[k]`: `undefined` unless `v` is an object
holding the key. (Object keys are assumed unique, as after `JSON.parse`.) -/
def jGet : JVal → String → JVal
  | .obj fields, k =>
    match fields.find? (fun f => f.1 == k) with
    | some f => f.2
    | none => .jundefined
  | _, _ => .jundefined

/-- `isNumber` from the source: `typeof value === "number" && Number.isFinite(value)`,
returning the number itself when it holds. -/
def asNum : JVal → Option ℚ
  | .jnum q => some q
  | _ => none

/-- `Number(s)` for a trimmed string, modelled for plain decimal literals
(optional sign, digits, optional fraction); anything else is `none`
(i.e. a non-finite parse, which every caller turns into its fallback). -/
def strToNum (s : String) : Option ℚ :=
  let step := fun (acc : Option (ℤ × Option ℤ × ℤ × Bool)) (c : Char) =>
    match acc with
    | none => none
    | some (ip, fp, den, started) =>
      if c.isDigit then
        match fp with
        | none => some (ip * 10 + (c.toNat - 48 : ℤ), none, den, true)
        | some f => some (ip, some (f * 10 + (c.toNat - 48 : ℤ)), den * 10, started)
      else if c = '.' then
        match fp with
        | none => if started then some (ip, some 0, 1, started) else none
        | some _ => none
      else none
  let core := fun (t : List Char) =>
    match t.foldl step (some (0, none, 1, false)) with
    | some (ip, fp, den, started) =>
      if started then some ((ip : ℚ) + (((fp.getD 0) : ℚ) / (den : ℚ))) else none
    | none => none
  match s.data with
  | '-' :: t => (core t).map (fun q => -q)
  | '+' :: t => core t
  | t => core t

/-! ### Result field helpers (from `anchorFusion.ts`) -/

/-- `toConfidence`: clamp a finite number to [0,1]; parse a non-empty string;
otherwise the fallback. -/
def toConfidence (v : JVal) (fallback : ℚ) : ℚ :=
  match v with
  | .jnum q => clampQ q 0 1
  | .jstr s =>
    if jsTrim s != "" then
      match strToNum (jsTrim s) with
      | some parsed => clampQ parsed 0 1
      | none => fallback
    else fallback
  | _ => fallback

/-- `toPoint`: per-component round-and-clamp to [0,1000] with per-component
fallback. -/
def toPoint (v : JVal) (fallback : NormalizedPoint) : NormalizedPoint :=
  match v with
  | .arr items =>
    if items.length < 2 then fallback
    else
      let y := match (items[0]?).bind asNum with
        | some q => clampQ (jsRound q) 0 1000
        | none => fallback.1
      let x := match (items[1]?).bind asNum with
        | some q => clampQ (jsRound q) 0 1000
        | none => fallback.2
      (y, x)
  | _ => fallback

/-- `toFaceBox`: clamp the four coordinates (defaults 0,0,1000,1000), reject
empty boxes. -/
def toFaceBox (v : JVal) : Option NormalizedFaceBox :=
  match v with
  | .arr items =>
    if items.length < 4 then none
    else
      let ymin := match (items[0]?).bind asNum with
        | some q => clampQ (jsRound q) 0 1000
        | none => 0
      let xmin := match (items[1]?).bind asNum with
        | some q => clampQ (jsRound q) 0 1000
        | none => 0
      let ymax := match (items[2]?).bind asNum with
        | some q => clampQ (jsRound q) 0 1000
        | none => 1000
      let xmax := match (items[3]?).bind asNum with
        | some q => clampQ (jsRound q) 0 1000
        | none => 1000
      if ymax ≤ ymin ∨ xmax ≤ xmin then none else some (ymin, xmin, ymax, xmax)
  | _ => none

/-- `toStringOrFallback`: a non-blank string is trimmed, anything else is the
fallback. -/
def toStringOrFallback (v : JVal) (fallback : String) : String :=
  match v with
  | .jstr s => if jsTrim s != "" then jsTrim s else fallback
  | _ => fallback

/-- The coarse facial regions of `FacialPartHint`. -/
inductive FacialPartHint where
  | leftEye | rightEye | leftEyeInner | rightEyeInner
  | nose | leftNoseHole | rightNoseHole
  | mouth | mouthLeft | mouthRight | mouthUpper | mouthLower
  | leftBrow | rightBrow | leftBrowInner | rightBrowInner
  | chin | forehead | leftCheek | rightCheek | faceCenter
  | unknown
deriving DecidableEq, Repr

/-- The source's string for each facial part (template interpolation). -/
def partToString : FacialPartHint → String
  | .leftEye => "leftEye"
  | .rightEye => "rightEye"
  | .leftEyeInner => "leftEyeInner"
  | .rightEyeInner => "rightEyeInner"
  | .nose => "nose"
  | .leftNoseHole => "leftNoseHole"
  | .rightNoseHole => "rightNoseHole"
  | .mouth => "mouth"
  | .mouthLeft => "mouthLeft"
  | .mouthRight => "mouthRight"
  | .mouthUpper => "mouthUpper"
  | .mouthLower => "mouthLower"
  | .leftBrow => "leftBrow"
  | .rightBrow => "rightBrow"
  | .leftBrowInner => "leftBrowInner"
  | .rightBrowInner => "rightBrowInner"
  | .chin => "chin"
  | .forehead => "forehead"
  | .leftCheek => "leftCheek"
  | .rightCheek => "rightCheek"
  | .faceCenter => "faceCenter"
  | .unknown => "unknown"

/-- The switch inside `toFacialPart`, on the trimmed string. -/
def parsePart (s : String) : FacialPartHint :=
  if s = "leftEye" then .leftEye
  else if s = "rightEye" then .rightEye
  else if s = "leftEyeInner" then .leftEyeInner
  else if s = "rightEyeInner" then .rightEyeInner
  else if s = "nose" then .nose
  else if s = "leftNoseHole" then .leftNoseHole
  else if s = "rightNoseHole" then .rightNoseHole
  else if s = "mouth" then .mouth
  else if s = "mouthLeft" then .mouthLeft
  else if s = "mouthRight" then .mouthRight
  else if s = "mouthUpper" then .mouthUpper
  else if s = "mouthLower" then .mouthLower
  else if s = "leftBrow" then .leftBrow
  else if s = "rightBrow" then .rightBrow
  else if s = "leftBrowInner" then .leftBrowInner
  else if s = "rightBrowInner" then .rightBrowInner
  else if s = "chin" then .chin
  else if s = "forehead" then .forehead
  else if s = "leftCheek" then .leftCheek
  else if s = "rightCheek" then .rightCheek
  else if s = "faceCenter" then .faceCenter
  else .unknown

/-- `toFacialPart`: trim a string value (non-strings normalize to `""`) and
match it against the known part names, defaulting to `unknown`. -/
def toFacialPart (v : JVal) : FacialPartHint :=
  match v with
  | .jstr s => parsePart (jsTrim s)
  | _ => parsePart ""

/-- `FACIAL_PART_DEFAULT_POINTS`, with `unknown` falling back to the
`faceCenter` entry as in `defaultPointForPart`. -/
def defaultPointForPart : FacialPartHint → NormalizedPoint
  | .leftEye => (370, 330)
  | .rightEye => (370, 670)
  | .leftEyeInner => (375, 430)
  | .rightEyeInner => (375, 570)
  | .nose => (520, 500)
  | .leftNoseHole => (555, 460)
  | .rightNoseHole => (555, 540)
  | .mouth => (700, 500)
  | .mouthLeft => (705, 410)
  | .mouthRight => (705, 590)
  | .mouthUpper => (680, 500)
  | .mouthLower => (735, 500)
  | .leftBrow => (300, 320)
  | .rightBrow => (300, 680)
  | .leftBrowInner => (315, 430)
  | .rightBrowInner => (315, 570)
  | .chin => (880, 500)
  | .forehead => (165, 500)
  | .leftCheek => (560, 290)
  | .rightCheek => (560, 710)
  | .faceCenter => (470, 500)
  | .unknown => (470, 500)

/-- Head pose angles in degrees. -/
structure HeadPose where
  pitch : ℚ
  yaw : ℚ
  roll : ℚ
deriving DecidableEq, Repr

/-- The shared head-pose sanitation: present only for a truthy object-like
value; each angle clamped to [-90,90], defaulting to 0. -/
def toHeadPose (v : JVal) : Option HeadPose :=
  if isObjLike v then
    some {
      pitch := match asNum (jGet v "pitch") with
        | some n => clampQ n (-90) 90
        | none => 0
      yaw := match asNum (jGet v "yaw") with
        | some n => clampQ n (-90) 90
        | none => 0
      roll := match asNum (jGet v "roll") with
        | some n => clampQ n (-90) 90
        | none => 0 }
  else none

/-! ### Strings and stable sorting -/

/-- `.toLowerCase().replace(/\s+/g, "-")`: lowercase, then collapse each
maximal whitespace run into a single dash. -/
def slugify (s : String) : String :=
  let folded := (jsToLower s).data.foldl
    (fun (acc : List Char × Bool) c =>
      if c.isWhitespace then
        if acc.2 then acc else ('-' :: acc.1, true)
      else (c :: acc.1, false))
    ([], false)
  String.mk folded.1.reverse

/-- Insert `a` in front of the first element `b` with `le a b` (stable). -/
def orderedInsertJS {α : Type} (le : α → α → Bool) (a : α) : List α → List α
  | [] => [a]
  | b :: l => if le a b then a :: b :: l else b :: orderedInsertJS le a l

/-- A stable sort modelling `Array.prototype.sort(cmp)` with
`le a b := cmp a b ≤ 0`. -/
def jsSortBy {α : Type} (le : α → α → Bool) : List α → List α
  | [] => []
  | a :: l => orderedInsertJS le a (jsSortBy le l)

/-! ### Lane result shapes (from the shared type declarations) -/

structure EmotionCandidate where
  emotion : String
  confidence : ℚ
deriving DecidableEq, Repr

structure LiteAnalysisResult where
  model : String
  frameId : ℚ
  capturedAt : ℚ
  faceDetected : Bool
  confidence : ℚ
  primaryEmotion : String
  primaryConfidence : ℚ
  moodSentence : String
  candidates : List EmotionCandidate
  faceBox : Option NormalizedFaceBox
  headPose : Option HeadPose
deriving DecidableEq, Repr

structure FastEmotion where
  emotion : String
  intensity : String
  confidence : ℚ
  point : NormalizedPoint
  facialPart : FacialPartHint
  explanation : Option String
deriving DecidableEq, Repr

structure FastLandmark where
  name : String
  point : NormalizedPoint
  confidence : ℚ
  facialPart : FacialPartHint
deriving DecidableEq, Repr

inductive AnchorKind where
  | emotion | depth | landmark
deriving DecidableEq, Repr

structure SemanticAnchor where
  id : String
  label : String
  kind : AnchorKind
  facialPart : FacialPartHint
  point : NormalizedPoint
  confidence : ℚ
  intensity : Option String
  explanation : Option String
deriving DecidableEq, Repr

structure FastAnalysisResult where
  model : String
  frameId : ℚ
  capturedAt : ℚ
  faceDetected : Bool
  confidence : ℚ
  faceBox : Option NormalizedFaceBox
  headPose : Option HeadPose
  emotions : List FastEmotion
  landmarks : List FastLandmark
  semanticAnchors : List SemanticAnchor
deriving DecidableEq, Repr

structure DepthInsight where
  keyword : String
  rationale : String
  medicalInterpretation : String
  confidence : ℚ
  facialPart : FacialPartHint
  point : NormalizedPoint
deriving DecidableEq, Repr

structure DepthAnalysisResult where
  model : String
  frameId : ℚ
  capturedAt : ℚ
  confidence : ℚ
  summary : String
  insights : List DepthInsight
  semanticAnchors : List SemanticAnchor
deriving DecidableEq, Repr

/-- The `AnalyzeOptions` fields the sanitizers read. -/
structure AnalyzeOptions where
  frameId : Option ℚ
  capturedAt : Option ℚ
deriving DecidableEq, Repr

def LITE_MODEL : String := "gemini-2.5-flash-lite"
def FLASH_MODEL : String := "gemini-3-flash-preview"
def PRO_MODEL : String := "gemini-3.1-pro-preview"
def LITE_FALLBACK_MODELS : List String := ["gemini-2.5-flash", "gemini-3-flash-preview"]
def FLASH_FALLBACK_MODELS : List String := ["gemini-3-flash-preview"]
def PRO_FALLBACK_MODELS : List String := ["gemini-3.1-pro-preview"]
def PRIMARY_EMOTION_MAX_CHARS : Nat := 64

/-! ### Semantic-anchor derivation -/

/-- Nearest landmark's facial part by squared planar distance (strictly
smaller distance wins, so the first minimum is kept). -/
def nearestLandmarkPart (point : NormalizedPoint) (landmarks : List FastLandmark) : FacialPartHint :=
  if landmarks.isEmpty then .unknown
  else
    let best := landmarks.foldl
      (fun (acc : Option FastLandmark × Option ℚ) landmark =>
        let dy := point.1 - landmark.point.1
        let dx := point.2 - landmark.point.2
        let distance := dy * dy + dx * dx
        match acc.2 with
        | none => (some landmark, some distance)
        | some bestDistance =>
          if distance < bestDistance then (some landmark, some distance) else acc)
      (none, none)
    match best.1 with
    | some l => l.facialPart
    | none => .unknown

/-- Counter lookup for `duplicateCounters.get(baseKey) ?? 0`. -/
def countersGet (counters : List (String × Nat)) (key : String) : Nat :=
  match counters.find? (fun e => e.1 == key) with
  | some e => e.2
  | none => 0

/-- Counter update for `duplicateCounters.set(baseKey, seen + 1)`. -/
def countersSet (counters : List (String × Nat)) (key : String) (value : Nat) :
    List (String × Nat) :=
  if counters.any (fun e => e.1 == key) then
    counters.map (fun e => if e.1 == key then (key, value) else e)
  else counters ++ [(key, value)]

/-- One emotion anchor of `buildFastAnchors` (the body of the `emotions.map`
callback, with the duplicate counter threaded through). -/
def buildEmotionAnchor (landmarks : List FastLandmark)
    (counters : List (String × Nat)) (emotion : FastEmotion) :
    SemanticAnchor × List (String × Nat) :=
  let resolvedPart :=
    if emotion.facialPart = .unknown then nearestLandmarkPart emotion.point landmarks
    else emotion.facialPart
  let emotionKey := slugify emotion.emotion
  let baseKey := emotionKey ++ "-" ++ partToString resolvedPart
  let seen := countersGet counters baseKey
  let nextCounters := countersSet counters baseKey (seen + 1)
  let stableId := "emo-" ++ baseKey ++ "-" ++ toString (seen + 1)
  ({ id := stableId
     label := emotion.emotion
     kind := .emotion
     facialPart := resolvedPart
     point := emotion.point
     confidence := emotion.confidence
     intensity := some emotion.intensity
     explanation := emotion.explanation }, nextCounters)

/-- `buildFastAnchors`: emotion anchors (deduplicated ids via the counter
map) followed by at most 8 landmark anchors. -/
def buildFastAnchors (emotions : List FastEmotion) (landmarks : List FastLandmark) :
    List SemanticAnchor :=
  let emotionAnchors :=
    (emotions.foldl
      (fun (acc : List SemanticAnchor × List (String × Nat)) emotion =>
        let built := buildEmotionAnchor landmarks acc.2 emotion
        (acc.1 ++ [built.1], built.2))
      ([], [])).1
  let landmarkAnchors := ((landmarks.take 8).enum).map
    (fun (entry : Nat × FastLandmark) =>
      { id := "lm-" ++ toString entry.1 ++ "-" ++ slugify entry.2.name
        label := entry.2.name
        kind := .landmark
        facialPart := entry.2.facialPart
        point := entry.2.point
        confidence := entry.2.confidence
        intensity := none
        explanation := none })
  emotionAnchors ++ landmarkAnchors

/-- `buildDepthAnchors`. -/
def buildDepthAnchors (insights : List DepthInsight) : List SemanticAnchor :=
  (insights.enum).map
    (fun (entry : Nat × DepthInsight) =>
      { id := "depth-" ++ toString entry.1 ++ "-" ++ slugify entry.2.keyword
        label := entry.2.keyword
        kind := .depth
        facialPart := entry.2.facialPart
        point := entry.2.point
        confidence := entry.2.confidence
        intensity := none
        explanation := none })

/-! ### Default lane results -/

def toDefaultLiteResult (options : AnalyzeOptions) (now : ℚ) (model : String) :
    LiteAnalysisResult :=
  { model := model
    frameId := options.frameId.getD 0
    capturedAt := options.capturedAt.getD now
    faceDetected := false
    confidence := 0
    primaryEmotion := "neutral"
    primaryConfidence := 0
    moodSentence := "The observed mood appears neutral with low confidence."
    candidates := []
    faceBox := none
    headPose := none }

def toDefaultFlashResult (options : AnalyzeOptions) (now : ℚ) (model : String) :
    FastAnalysisResult :=
  { model := model
    frameId := options.frameId.getD 0
    capturedAt := options.capturedAt.getD now
    faceDetected := false
    confidence := 0
    faceBox := none
    headPose := none
    emotions := []
    landmarks := []
    semanticAnchors := [] }

def toDefaultDepthResult (options : AnalyzeOptions) (now : ℚ) (model : String) :
    DepthAnalysisResult :=
  { model := model
    frameId := options.frameId.getD 0
    capturedAt := options.capturedAt.getD now
    confidence := 0
    summary := ""
    insights := []
    semanticAnchors := [] }

/-! ### Sanitizers -/

/-- One entry of the lite `candidates` mapping. -/
def sanitizeLiteCandidate (item : JVal) : EmotionCandidate :=
  { emotion := toStringOrFallback (jGet item "emotion") "neutral"
    confidence := toConfidence (jGet item "confidence") 0.45 }

/-- The `candidates` list of `sanitizeLiteResult`: at most 6 mapped items
when the field is an array, else empty. -/
def liteCandidates (raw : JVal) : List EmotionCandidate :=
  match jGet raw "candidates" with
  | .arr items => (items.take 6).map sanitizeLiteCandidate
  | _ => []

/-- `faceDetected` of the lite sanitizer: the flag's truthiness or a
present (valid) face box. -/
def liteFaceDetected (raw : JVal) : Bool :=
  truthy (jGet raw "faceDetected") || (toFaceBox (jGet raw "faceBox")).isSome

/-- `frameConfidence` of the lite sanitizer. -/
def liteFrameConfidence (raw : JVal) : ℚ :=
  toConfidence (jGet raw "confidence") (if liteFaceDetected raw then 0.7 else 0.1)

/-- `primaryEmotion` of the lite sanitizer: the field, else the first
candidate, else "neutral"; truncated to 64 characters. -/
def litePrimaryEmotion (raw : JVal) : String :=
  jsTake
    (if toStringOrFallback (jGet raw "primaryEmotion") "" != "" then
      toStringOrFallback (jGet raw "primaryEmotion") ""
     else
      match (liteCandidates raw).head? with
      | some c => if c.emotion != "" then c.emotion else "neutral"
      | none => "neutral")
    PRIMARY_EMOTION_MAX_CHARS

/-- `primaryCandidate`: the candidate matching the primary emotion
case-insensitively. -/
def litePrimaryCandidate (raw : JVal) : Option EmotionCandidate :=
  (liteCandidates raw).find?
    (fun c => jsToLower (jsTrim c.emotion) == jsToLower (jsTrim (litePrimaryEmotion raw)))

/-- `primaryConfidence`: the field when numeric, else the matched (or
first) candidate's confidence, else the frame confidence. -/
def litePrimaryConfidence (raw : JVal) : ℚ :=
  toConfidence (jGet raw "primaryConfidence")
    (match litePrimaryCandidate raw with
     | some c => c.confidence
     | none =>
       match (liteCandidates raw).head? with
       | some c => c.confidence
       | none => liteFrameConfidence raw)

/-- `moodSentence`: the (truncated) field, else a templated sentence. -/
def liteMoodSentence (raw : JVal) : String :=
  let moodRaw := jsTake (toStringOrFallback (jGet raw "moodSentence") "") 180
  if moodRaw != "" then moodRaw
  else "The observed mood appears " ++ litePrimaryEmotion raw ++ " with " ++
    toString (jsRoundInt (litePrimaryConfidence raw * 100)) ++ "% confidence."

/-- `sanitizeLiteResult` (the source's local consts are the named
definitions above). -/
def sanitizeLiteResult (raw : JVal) (options : AnalyzeOptions) (model : String)
    (now : ℚ) : LiteAnalysisResult :=
  if ¬ (truthy raw ∧ isObjLike raw) then toDefaultLiteResult options now model
  else
    { model := model
      frameId := options.frameId.getD 0
      capturedAt := options.capturedAt.getD now
      faceDetected := liteFaceDetected raw
      confidence := liteFrameConfidence raw
      primaryEmotion := litePrimaryEmotion raw
      primaryConfidence := litePrimaryConfidence raw
      moodSentence := liteMoodSentence raw
      candidates := liteCandidates raw
      faceBox := toFaceBox (jGet raw "faceBox")
      headPose := toHeadPose (jGet raw "headPose") }

/-- One entry of the flash `emotions` mapping: an unrecognized or "unknown"
facial part is replaced by `faceCenter` before the point default is chosen. -/
def sanitizeFlashEmotion (item : JVal) : FastEmotion :=
  let parsedPart := toFacialPart (jGet item "facialPart")
  let facialPart := if parsedPart = .unknown then .faceCenter else parsedPart
  { emotion := toStringOrFallback (jGet item "emotion") "neutral"
    intensity := toStringOrFallback (jGet item "intensity") "low"
    confidence := toConfidence (jGet item "confidence") 0.4
    point := toPoint (jGet item "point") (defaultPointForPart facialPart)
    facialPart := facialPart
    explanation :=
      let e := jsTake (toStringOrFallback (jGet item "explanation") "") 120
      if e = "" then none else some e }

/-- The `emotions` list of `sanitizeFlashResult`: at most 6 mapped items
when the field is an array, else empty. -/
def flashEmotions (raw : JVal) : List FastEmotion :=
  match jGet raw "emotions" with
  | .arr items => (items.take 6).map sanitizeFlashEmotion
  | _ => []

/-- `faceDetected` of the flash sanitizer; the local `landmarks` constant
is always empty, so its length disjunct is never true. -/
def flashFaceDetected (raw : JVal) : Bool :=
  truthy (jGet raw "faceDetected") || (toFaceBox (jGet raw "faceBox")).isSome ||
    decide (0 < ([] : List FastLandmark).length)

/-- `sanitizeFlashResult`. The local `landmarks` constant is declared empty
and never filled, exactly as in the source. -/
def sanitizeFlashResult (raw : JVal) (options : AnalyzeOptions) (model : String)
    (now : ℚ) : FastAnalysisResult :=
  if ¬ (truthy raw ∧ isObjLike raw) then toDefaultFlashResult options now model
  else
    let landmarks : List FastLandmark := []
    { model := model
      frameId := options.frameId.getD 0
      capturedAt := options.capturedAt.getD now
      faceDetected := flashFaceDetected raw
      confidence :=
        toConfidence (jGet raw "confidence") (if flashFaceDetected raw then 0.6 else 0.1)
      faceBox := toFaceBox (jGet raw "faceBox")
      headPose := toHeadPose (jGet raw "headPose")
      emotions := flashEmotions raw
      landmarks := landmarks
      semanticAnchors := buildFastAnchors (flashEmotions raw) landmarks }

/-- One entry of the depth `insights` mapping. -/
def sanitizeDepthInsight (item : JVal) : DepthInsight :=
  { keyword := toStringOrFallback (jGet item "keyword") "neutral"
    rationale := toStringOrFallback (jGet item "rationale") ""
    medicalInterpretation := toStringOrFallback (jGet item "medicalInterpretation") ""
    confidence := toConfidence (jGet item "confidence") 0.34
    facialPart := toFacialPart (jGet item "facialPart")
    point := toPoint (jGet item "point") (500, 500) }

/-- The `insights` list of `sanitizeDepthResult`: at most 10 mapped items
when the field is an array, else empty. -/
def depthInsights (raw : JVal) : List DepthInsight :=
  match jGet raw "insights" with
  | .arr items => (items.take 10).map sanitizeDepthInsight
  | _ => []

/-- `sanitizeDepthResult`. -/
def sanitizeDepthResult (raw : JVal) (options : AnalyzeOptions) (model : String)
    (now : ℚ) : DepthAnalysisResult :=
  if ¬ (truthy raw ∧ isObjLike raw) then toDefaultDepthResult options now model
  else
    let insights := depthInsights raw
    { model := model
      frameId := options.frameId.getD 0
      capturedAt := options.capturedAt.getD now
      confidence :=
        toConfidence (jGet raw "confidence") (if insights.isEmpty then 0.1 else 0.56)
      summary := toStringOrFallback (jGet raw "summary") ""
      insights := insights
      semanticAnchors := buildDepthAnchors insights }

/-! ### Anchor Fusion Engine (`anchorFusion.ts`, class `AnchorFusionEngine`)

The engine's private `Map` of bindings is modelled as an insertion-ordered
association list (JS `Map` preserves insertion order; `set` on an existing
key keeps its position). -/

structure TrackedLandmark where
  index : Nat
  point : NormalizedPoint
deriving DecidableEq, Repr

structure TrackedFaceFrame where
  timestampMs : ℚ
  points : List TrackedLandmark
  parts : FacialPartHint → Option NormalizedPoint
  faceBox : Option NormalizedFaceBox
  confidence : ℚ

structure AnchorBinding where
  anchor : SemanticAnchor
  landmarkIndex : Option Nat
  offset : Option NormalizedPoint
  lastSeenAt : ℚ
deriving DecidableEq, Repr

structure FusedAnchor extends SemanticAnchor where
  projectedPoint : NormalizedPoint
  stale : Bool
deriving DecidableEq, Repr

structure AnchorFusionOptions where
  maxStaleMs : Option ℚ
  hardMaxStaleMs : Option ℚ
  reacquireDistance : Option ℚ

/-- The constructor-resolved configuration fields of the engine. -/
structure FusionConfig where
  maxStaleMs : ℚ
  hardMaxStaleMs : ℚ
  reacquireDistanceSq : ℚ
deriving DecidableEq, Repr

/-- The `AnchorFusionEngine` constructor. -/
def mkFusionConfig (options : AnchorFusionOptions) : FusionConfig :=
  let maxStaleMs := options.maxStaleMs.getD 4500
  let reacquireDistance := options.reacquireDistance.getD 130
  { maxStaleMs := maxStaleMs
    hardMaxStaleMs := max maxStaleMs (options.hardMaxStaleMs.getD 30000)
    reacquireDistanceSq := reacquireDistance * reacquireDistance }

def defaultFusionConfig : FusionConfig :=
  mkFusionConfig { maxStaleMs := none, hardMaxStaleMs := none, reacquireDistance := none }

/-- The engine's binding map, in insertion order. -/
abbrev FusionState := List (String × AnchorBinding)

/-- `Map.get`. -/
def stateGet (st : FusionState) (key : String) : Option AnchorBinding :=
  (st.find? (fun e => e.1 == key)).map (fun e => e.2)

/-- `Map.set` (update in place, else append). -/
def stateSet (st : FusionState) (key : String) (value : AnchorBinding) : FusionState :=
  if st.any (fun e => e.1 == key) then
    st.map (fun e => if e.1 == key then (key, value) else e)
  else st ++ [(key, value)]

/-- `squaredDistance` from `anchorFusion.ts`. -/
def squaredDistance (a b : NormalizedPoint) : ℚ :=
  let dy := a.1 - b.1
  let dx := a.2 - b.2
  dy * dy + dx * dx

/-- `addOffset`: clamped back into the 0..1000 grid. -/
def addOffset (point offset : NormalizedPoint) : NormalizedPoint :=
  (clampQ (point.1 + offset.1) 0 1000, clampQ (point.2 + offset.2) 0 1000)

/-- `subtractPoint`. -/
def subtractPoint (a b : NormalizedPoint) : NormalizedPoint :=
  (a.1 - b.1, a.2 - b.2)

/-- `nearestLandmarkIndex`: the stored `index` field of the strictly nearest
tracked landmark (first minimum kept). -/
def nearestLandmarkIndex (frame : TrackedFaceFrame) (target : NormalizedPoint) :
    Option Nat :=
  if frame.points.isEmpty then none
  else
    (frame.points.foldl
      (fun (acc : Option Nat × Option ℚ) point =>
        let distance := squaredDistance point.point target
        match acc.2 with
        | none => (some point.index, some distance)
        | some best => if distance < best then (some point.index, some distance) else acc)
      (none, none)).1

/-- `resolveTargetPoint` (private method). -/
def resolveTargetPoint (anchor : SemanticAnchor) (frame : TrackedFaceFrame) :
    NormalizedPoint :=
  if anchor.facialPart ≠ .unknown ∧ (frame.parts anchor.facialPart).isSome then
    (frame.parts anchor.facialPart).getD anchor.point
  else anchor.point

/-- The per-anchor body of the second loop of `updateAnchors`. -/
def updateOneAnchor (cfg : FusionConfig) (st : FusionState)
    (frame : Option TrackedFaceFrame) (nowMs : ℚ) (anchor : SemanticAnchor) :
    FusionState :=
  let previous := stateGet st anchor.id
  let target := match frame with
    | some f => resolveTargetPoint anchor f
    | none => anchor.point
  let isKnownPart : Bool := match frame with
    | some f => anchor.facialPart != .unknown && (f.parts anchor.facialPart).isSome
    | none => false
  let shouldUsePrevious : Bool := match previous, frame with
    | some prev, some f =>
      match prev.landmarkIndex with
      | some li =>
        match f.points[li]? with
        | some tracked =>
          decide (squaredDistance anchor.point tracked.point < cfg.reacquireDistanceSq)
        | none => false
      | none => false
    | _, _ => false
  let landmarkIndex0 := match previous with
    | some prev => prev.landmarkIndex
    | none => none
  let landmarkIndex1 :=
    if ¬ isKnownPart ∧ ¬ shouldUsePrevious ∧ frame.isSome then
      match frame with
      | some f => nearestLandmarkIndex f target
      | none => landmarkIndex0
    else landmarkIndex0
  let landmarkIndex := if isKnownPart then none else landmarkIndex1
  let trackedPoint := match frame, landmarkIndex with
    | some f, some li =>
      match f.points[li]? with
      | some tracked => tracked.point
      | none => anchor.point
    | _, _ => target
  let offset :=
    if isKnownPart then ((0, 0) : NormalizedPoint) else subtractPoint anchor.point trackedPoint
  stateSet st anchor.id
    { anchor := anchor, landmarkIndex := landmarkIndex, offset := some offset,
      lastSeenAt := nowMs }

/-- `updateAnchors`: drop bindings absent from the incoming set and older
than the soft staleness bound, then (re)bind every incoming anchor. -/
def updateAnchors (cfg : FusionConfig) (st : FusionState)
    (nextAnchors : List SemanticAnchor) (frame : Option TrackedFaceFrame)
    (nowMs : ℚ) : FusionState :=
  let incomingIds := nextAnchors.map (fun anchor => anchor.id)
  let pruned := st.filter
    (fun e => incomingIds.contains e.1 || decide (nowMs - e.2.lastSeenAt ≤ cfg.maxStaleMs))
  nextAnchors.foldl (fun acc anchor => updateOneAnchor cfg acc frame nowMs anchor) pruned

/-- The projected-point resolution of `project` for one surviving binding. -/
def projectBinding (frame : Option TrackedFaceFrame) (binding : AnchorBinding) :
    NormalizedPoint :=
  match frame with
  | none => binding.anchor.point
  | some f =>
    if binding.anchor.facialPart ≠ .unknown ∧ (f.parts binding.anchor.facialPart).isSome
    then (f.parts binding.anchor.facialPart).getD binding.anchor.point
    else
      match binding.landmarkIndex, binding.offset with
      | some li, some offset =>
        match f.points[li]? with
        | some tracked => addOffset tracked.point offset
        | none =>
          match nearestLandmarkIndex f binding.anchor.point with
          | some fallbackIndex =>
            match f.points[fallbackIndex]? with
            | some tracked => tracked.point
            | none => binding.anchor.point
          | none => binding.anchor.point
      | _, _ =>
        match nearestLandmarkIndex f binding.anchor.point with
        | some fallbackIndex =>
          match f.points[fallbackIndex]? with
          | some tracked => tracked.point
          | none => binding.anchor.point
        | none => binding.anchor.point

/-- The fused anchor emitted for one surviving binding. -/
def emitFusedAnchor (cfg : FusionConfig) (frame : Option TrackedFaceFrame)
    (nowMs : ℚ) (binding : AnchorBinding) : FusedAnchor :=
  { toSemanticAnchor := binding.anchor
    projectedPoint := projectBinding frame binding
    stale := decide (cfg.maxStaleMs * (1/2) < nowMs - binding.lastSeenAt) }

/-- `project`: prune bindings beyond the applicable staleness ceiling, emit
a fused anchor for each survivor, and sort by descending confidence
(`(a, b) => b.confidence - a.confidence`, stable). Returns the mutated
binding map together with the output list. -/
def project (cfg : FusionConfig) (st : FusionState)
    (frame : Option TrackedFaceFrame) (nowMs : ℚ) (preserveStale : Bool) :
    FusionState × List FusedAnchor :=
  let maxAgeMs := if preserveStale then cfg.hardMaxStaleMs else cfg.maxStaleMs
  let survivors := st.filter (fun e => decide (nowMs - e.2.lastSeenAt ≤ maxAgeMs))
  let projected := survivors.map (fun e => emitFusedAnchor cfg frame nowMs e.2)
  (survivors, jsSortBy (fun a b => decide (b.confidence - a.confidence ≤ 0)) projected)

/-! ### Model Gate (`acquireGate` / `releaseGate`) -/

def LITE_COOLDOWN_MS : ℚ := 450
def FLASH_COOLDOWN_MS : ℚ := 3200
def PRO_COOLDOWN_MS : ℚ := 45000
def GATE_POLL_MS : ℚ := 24
def GATE_MAX_WAIT_MS : ℚ := 16000

/-- Substring containment on character lists. -/
def hasSubstr : List Char → List Char → Bool
  | hay, needle =>
    match hay with
    | [] => needle.isEmpty
    | _ :: t => needle.isPrefixOf hay || hasSubstr t needle

/-- Case-insensitive containment, modelling `/pat/i.test(s)` for a literal
pattern. -/
def containsCI (s pat : String) : Bool :=
  hasSubstr (jsToLower s).data (jsToLower pat).data

/-- `cooldownForModel`: tiered per-model cooldown. -/
def cooldownForModel (model : String) : ℚ :=
  if containsCI model "flash-lite" then LITE_COOLDOWN_MS
  else if containsCI model "pro" then PRO_COOLDOWN_MS
  else if containsCI model "flash" then FLASH_COOLDOWN_MS
  else FLASH_COOLDOWN_MS

/-- One model's gate state. -/
structure GateState where
  inFlight : Bool
  lastCompletedAt : ℚ
deriving DecidableEq, Repr

/-- An observable gate transition, timestamped with the `Date.now()` value
read by the code performing it. -/
inductive GateEvent where
  | acquire (t : ℚ)
  | release (t : ℚ)
deriving DecidableEq, Repr

def GateEvent.time : GateEvent → ℚ
  | .acquire t => t
  | .release t => t

/-- One gate transition. An acquisition is granted exactly under the guard
of `acquireGate`'s loop (`!gate.inFlight` and `elapsed >= cooldown`, both
read at grant time); otherwise the event is not a possible grant and the
run is invalid. `releaseGate` always clears `inFlight` and stamps
`lastCompletedAt` with the release time. -/
def gateStep (cooldown : ℚ) (s : GateState) : GateEvent → Option GateState
  | .acquire t =>
    if s.inFlight then none
    else if cooldown ≤ t - s.lastCompletedAt then
      some { inFlight := true, lastCompletedAt := s.lastCompletedAt }
    else none
  | .release t => some { inFlight := false, lastCompletedAt := t }

/-- Run a sequence of gate events; `none` when some acquisition was not
actually grantable. -/
def runGate (cooldown : ℚ) : GateState → List GateEvent → Option GateState
  | s, [] => some s
  | s, e :: rest =>
    match gateStep cooldown s e with
    | some next => runGate cooldown next rest
    | none => none

/-! ### Fallback Orchestrator (`generateWithLaneFallback`) -/

/-- The fields of a thrown error object that the orchestrator inspects.
A non-object error (string, `undefined`, ...) is modelled as `none` where
`Option ErrObj` is used. -/
structure ErrObj where
  status : Option ℚ
  code : Option String
  message : Option String
deriving DecidableEq, Repr

/-- `s.toLowerCase()` contains one of the literal alternatives of the regex. -/
def containsAnyCI (s : String) (pats : List String) : Bool :=
  pats.any (fun pat => containsCI s pat)

/-- `shouldFallbackModelError`: only "model not recognized / unsupported /
not found" shaped errors are eligible for fallback to the next candidate. -/
def shouldFallbackModelError (error : Option ErrObj) : Bool :=
  match error with
  | none => false
  | some e =>
    let status := e.status
    let message := jsToLower (e.message.getD "")
    let code := jsToLower (e.code.getD "")
    if status = some 404 then true
    else if status = some 400 &&
        containsAnyCI message ["model", "unknown", "unsupported", "not found", "invalid"]
    then true
    else if containsAnyCI message
        ["model", "unknown", "unsupported", "not found", "does not exist", "invalid model"]
    then true
    else if containsAnyCI code ["not_found", "model_not_found", "unsupported"] then true
    else false

/-- First-occurrence deduplication, modelling `[...new Set(list)]`. -/
def dedupFirstAux (seen : List String) : List String → List String
  | [] => []
  | x :: rest =>
    if seen.contains x then dedupFirstAux seen rest
    else x :: dedupFirstAux (seen ++ [x]) rest

def dedupFirst (l : List String) : List String := dedupFirstAux [] l

/-- `candidateModels`: sticky lane model first, then the preferred model,
then the fallbacks; falsy (empty) entries dropped; deduplicated keeping
first occurrences. -/
def candidateModels (resolved : Option String) (preferred : String)
    (fallbacks : List String) : List String :=
  dedupFirst ((resolved.toList ++ [preferred] ++ fallbacks).filter (fun m => m != ""))

/-- What one candidate-model attempt does, as observed by the orchestrator:
the gate wait timed out (thrown by `acquireGate`, before the `try` block),
or the gated call threw (an `Option ErrObj` error, after which the gate is
released), or it returned response text (gate released as well). -/
inductive AttemptOutcome where
  | gateTimeout
  | genFailure (error : Option ErrObj)
  | success (text : String)

/-- The failure surfaced by `generateWithLaneFallback`. -/
inductive LaneError where
  | gateTimeout (model : String)
  | generation (error : Option ErrObj)
  | allCandidatesFailed
deriving DecidableEq, Repr

/-- The candidate loop of `generateWithLaneFallback`, given each model's
attempt outcome. A gate-wait timeout is raised by `await acquireGate(model)`
OUTSIDE the `try` block, so it propagates immediately without being
classified for fallback; a generation failure is retried on the next
candidate only when `shouldFallbackModelError` accepts it; when the
candidate list is exhausted the last error (or an aggregate error) is
thrown. -/
def generateWithLaneFallback (attempt : String → AttemptOutcome) :
    List String → Option (Option ErrObj) → Except LaneError (String × String)
  | [], lastError =>
    match lastError with
    | some e => .error (.generation e)
    | none => .error .allCandidatesFailed
  | model :: rest, _lastError =>
    match attempt model with
    | .gateTimeout => .error (.gateTimeout model)
    | .success text => .ok (text, model)
    | .genFailure e =>
      if shouldFallbackModelError e then generateWithLaneFallback attempt rest (some e)
      else .error (.generation e)

/-- `safeJsonParse`, parameterized by the `JSON.parse` builtin: empty or
falsy text and unparsable text both become `{}`. -/
def safeJsonParse (parse : String → Option JVal) (value : String) : JVal :=
  if value = "" then .obj []
  else
    match parse value with
    | some v => v
    | none => .obj []

/-- `analyzeLitePrimaryEmotion`: orchestrate over the lite candidate models;
on success sanitize the response text, on any thrown failure return the
safe default stamped with the sticky (or preferred) model. -/
def analyzeLitePrimaryEmotion (attempt : String → AttemptOutcome)
    (sticky : Option String) (options : AnalyzeOptions)
    (parse : String → Option JVal) (now : ℚ) : LiteAnalysisResult :=
  match generateWithLaneFallback attempt
      (candidateModels sticky LITE_MODEL LITE_FALLBACK_MODELS) none with
  | .ok res => sanitizeLiteResult (safeJsonParse parse res.1) options res.2 now
  | .error _ => toDefaultLiteResult options now (sticky.getD LITE_MODEL)

/-- `analyzeFlashInsights`, same shape for the mid lane. -/
def analyzeFlashInsights (attempt : String → AttemptOutcome)
    (sticky : Option String) (options : AnalyzeOptions)
    (parse : String → Option JVal) (now : ℚ) : FastAnalysisResult :=
  match generateWithLaneFallback attempt
      (candidateModels sticky FLASH_MODEL FLASH_FALLBACK_MODELS) none with
  | .ok res => sanitizeFlashResult (safeJsonParse parse res.1) options res.2 now
  | .error _ => toDefaultFlashResult options now (sticky.getD FLASH_MODEL)

/-- `analyzeDepthInsights`, same shape for the deep lane. -/
def analyzeDepthInsights (attempt : String → AttemptOutcome)
    (sticky : Option String) (options : AnalyzeOptions)
    (parse : String → Option JVal) (now : ℚ) : DepthAnalysisResult :=
  match generateWithLaneFallback attempt
      (candidateModels sticky PRO_MODEL PRO_FALLBACK_MODELS) none with
  | .ok res => sanitizeDepthResult (safeJsonParse parse res.1) options res.2 now
  | .error _ => toDefaultDepthResult options now (sticky.getD PRO_MODEL)

/-! ### Label Layout Engine (`smoothing.ts`, `layoutLabels`)

`Math.hypot`/`Math.sqrt` are IEEE builtins; they are modelled by `ratSqrt`,
a deterministic rational approximation. No theorem below depends on the
values it returns: the collision facts proved here hold for every possible
square-root function, and the counterexample input exercises no code path
that calls it. -/

/-- Integer square root (largest `k` with `k * k ≤ n`), kernel-reducible. -/
def intSqrt (n : Nat) : Nat :=
  (List.range (n + 2)).foldl (fun acc k => if k * k ≤ n then k else acc) 0

/-- Deterministic rational approximation of `Math.sqrt` (6 decimal digits
via integer square root). -/
def ratSqrt (q : ℚ) : ℚ :=
  if q ≤ 0 then 0
  else ((intSqrt (⌊q * 1000000000000⌋).toNat : ℚ) / 1000000)

/-- `Math.hypot x y`. -/
def mathHypot (x y : ℚ) : ℚ := ratSqrt (x * x + y * y)

structure LabelLayoutInput where
  id : String
  text : String
  anchorX : ℚ
  anchorY : ℚ
  width : ℚ
  height : ℚ
  priority : ℚ
  preferDistance : Bool
deriving DecidableEq, Repr

structure LabelLayoutOutput extends LabelLayoutInput where
  x : ℚ
  y : ℚ
deriving DecidableEq, Repr

structure Bounds where
  width : ℚ
  height : ℚ
  padding : Option ℚ
  faceCenterX : Option ℚ
  faceCenterY : Option ℚ
deriving DecidableEq, Repr

/-- `OFFSETS`: the short near set for ordinary labels (`[x, y]` pairs). -/
def OFFSETS : List (ℚ × ℚ) :=
  [(14, -18), (16, 16), (-16, -18), (-16, 18), (24, 0), (-24, 0), (0, -24), (0, 24)]

/-- `EMOTION_OFFSETS`: the radial spread set for distance-preferring labels. -/
def EMOTION_OFFSETS : List (ℚ × ℚ) :=
  [(112, -88), (118, -42), (124, 10), (114, 62), (98, 102), (70, 122), (30, 134),
   (-30, 134), (-70, 122), (-98, 102), (-114, 62), (-124, 10), (-118, -42),
   (-112, -88), (-94, -118), (-56, -136), (0, -144), (56, -136), (94, -118),
   (132, -4), (132, 52), (132, -56), (-132, -4), (-132, 52), (-132, -56)]

/-- `intersects`: open-rectangle overlap. -/
def intersects (a b : LabelLayoutOutput) : Bool :=
  decide (a.x < b.x + b.width) && decide (a.x + a.width > b.x) &&
  decide (a.y < b.y + b.height) && decide (a.y + a.height > b.y)

/-- `intersectsWithGap`: overlap of the gap-inflated rectangles. -/
def intersectsWithGap (a b : LabelLayoutOutput) (gap : ℚ) : Bool :=
  decide (a.x - gap < b.x + b.width + gap) && decide (a.x + a.width + gap > b.x - gap) &&
  decide (a.y - gap < b.y + b.height + gap) && decide (a.y + a.height + gap > b.y - gap)

/-- `keepInBounds`: clamp the position into the padded viewport. -/
def keepInBounds (layout : LabelLayoutOutput) (bounds : Bounds) : LabelLayoutOutput :=
  let padding := bounds.padding.getD 8
  { layout with
    x := clampQ layout.x padding (bounds.width - layout.width - padding)
    y := clampQ layout.y padding (bounds.height - layout.height - padding) }

/-- `getOutwardDirection`: unit vector from the face center to the anchor,
`none` without a face center or when the anchor sits on it. -/
def getOutwardDirection (anchorX anchorY : ℚ) (bounds : Bounds) : Option (ℚ × ℚ) :=
  match bounds.faceCenterX, bounds.faceCenterY with
  | some faceCenterX, some faceCenterY =>
    let outwardX := anchorX - faceCenterX
    let outwardY := anchorY - faceCenterY
    let length := mathHypot outwardX outwardY
    if length < 1/1000 then none
    else some (outwardX / length, outwardY / length)
  | _, _ => none

/-- `isPlacementOutward`: the anchor-to-label-center vector points with the
outward direction. -/
def isPlacementOutward (anchorX anchorY : ℚ) (layout : LabelLayoutOutput)
    (outwardDirection : ℚ × ℚ) : Bool :=
  let centerX := layout.x + layout.width / 2
  let centerY := layout.y + layout.height / 2
  let vectorX := centerX - anchorX
  let vectorY := centerY - anchorY
  decide (0 < vectorX * outwardDirection.1 + vectorY * outwardDirection.2)

/-- `hashText`: the 32-bit rolling hash over UTF-16 code units. -/
def hashText (value : String) : Nat :=
  value.data.foldl (fun hash c => (hash * 31 + c.toNat) % 4294967296) 0

/-- `rotateOffsets`. -/
def rotateOffsets (offsets : List (ℚ × ℚ)) (start : Nat) : List (ℚ × ℚ) :=
  if offsets.isEmpty then offsets
  else
    let normalized := start % offsets.length
    offsets.drop normalized ++ offsets.take normalized

/-- The comparator of `prioritizeOutwardOffsets`: outwardness score
descending, then offset length descending. -/
def outwardOffsetCmp (outward : ℚ × ℚ) (a b : ℚ × ℚ) : ℚ :=
  let aLen := let h := mathHypot a.1 a.2; if h = 0 then 1 else h
  let bLen := let h := mathHypot b.1 b.2; if h = 0 then 1 else h
  let aScore := (a.1 / aLen) * outward.1 + (a.2 / aLen) * outward.2
  let bScore := (b.1 / bLen) * outward.1 + (b.2 / bLen) * outward.2
  if 1/10000 < |bScore - aScore| then bScore - aScore else bLen - aLen

/-- `prioritizeOutwardOffsets`. -/
def prioritizeOutwardOffsets (offsets : List (ℚ × ℚ)) (anchorX anchorY : ℚ)
    (bounds : Bounds) : List (ℚ × ℚ) :=
  match getOutwardDirection anchorX anchorY bounds with
  | none => offsets
  | some outward =>
    jsSortBy (fun a b => decide (outwardOffsetCmp outward a b ≤ 0)) offsets

/-- The candidate attempt for one offset. -/
def attemptAt (bounds : Bounds) (input : LabelLayoutInput) (offset : ℚ × ℚ) :
    LabelLayoutOutput :=
  keepInBounds
    { toLabelLayoutInput := input, x := input.anchorX + offset.1, y := input.anchorY + offset.2 }
    bounds

/-- The collision check of the first offset loop: an extra gap of 10 for
distance-preferring labels, plain intersection otherwise. -/
def stage1Collides (placed : List LabelLayoutOutput) (input : LabelLayoutInput)
    (attempt : LabelLayoutOutput) : Bool :=
  let collisionGap : ℚ := if input.preferDistance then 10 else 0
  placed.any (fun existing =>
    if 0 < collisionGap then intersectsWithGap existing attempt collisionGap
    else intersects existing attempt)

/-- The first (outward-constrained, collision-checked) offset loop. -/
def findStage1 (bounds : Bounds) (placed : List LabelLayoutOutput)
    (input : LabelLayoutInput) (outwardDirection : Option (ℚ × ℚ)) :
    List (ℚ × ℚ) → Option LabelLayoutOutput
  | [] => none
  | offset :: rest =>
    let attempt := attemptAt bounds input offset
    let outwardBlocked := match outwardDirection with
      | some direction => !isPlacementOutward input.anchorX input.anchorY attempt direction
      | none => false
    if outwardBlocked then findStage1 bounds placed input outwardDirection rest
    else
      if stage1Collides placed input attempt then
        findStage1 bounds placed input outwardDirection rest
      else some attempt

/-- The retry loop without the outward constraint (gap 6). -/
def findStage2 (bounds : Bounds) (placed : List LabelLayoutOutput)
    (input : LabelLayoutInput) : List (ℚ × ℚ) → Option LabelLayoutOutput
  | [] => none
  | offset :: rest =>
    let attempt := attemptAt bounds input offset
    let hasCollision := placed.any (fun existing => intersectsWithGap existing attempt 6)
    if hasCollision then findStage2 bounds placed input rest
    else some attempt

/-- The final unchecked placement: radial along the outward direction for
distance-preferring labels with a face center, else a small fixed offset. -/
def fallbackPlacement (bounds : Bounds) (input : LabelLayoutInput)
    (outwardDirection : Option (ℚ × ℚ)) : LabelLayoutOutput :=
  match (if input.preferDistance then outwardDirection else none) with
  | some direction =>
    let radialDistance : ℚ := 118
    keepInBounds
      { toLabelLayoutInput := input
        x := input.anchorX + direction.1 * radialDistance - input.width / 2
        y := input.anchorY + direction.2 * radialDistance - input.height / 2 }
      bounds
  | none =>
    let fallback : ℚ × ℚ := if input.preferDistance then (52, 0) else (14, 14)
    keepInBounds
      { toLabelLayoutInput := input
        x := input.anchorX + fallback.1
        y := input.anchorY + fallback.2 }
      bounds

/-- The offset list used for one label. -/
def offsetsFor (bounds : Bounds) (input : LabelLayoutInput) : List (ℚ × ℚ) :=
  if input.preferDistance then
    prioritizeOutwardOffsets (rotateOffsets EMOTION_OFFSETS (hashText input.id))
      input.anchorX input.anchorY bounds
  else OFFSETS

/-- The outward direction used for one label (`null` for ordinary labels). -/
def outwardFor (bounds : Bounds) (input : LabelLayoutInput) : Option (ℚ × ℚ) :=
  if input.preferDistance then getOutwardDirection input.anchorX input.anchorY bounds
  else none

/-- The collision-checked part of the placement search (stages 1 and 2);
`none` means the label falls through to the unchecked fallback. -/
def acceptedPlacement (bounds : Bounds) (placed : List LabelLayoutOutput)
    (input : LabelLayoutInput) : Option LabelLayoutOutput :=
  let offsets := offsetsFor bounds input
  match findStage1 bounds placed input (outwardFor bounds input) offsets with
  | some candidate => some candidate
  | none =>
    match outwardFor bounds input with
    | some _ => findStage2 bounds placed input offsets
    | none => none

/-- The full placement of one label over the already-placed list. -/
def placeLabel (bounds : Bounds) (placed : List LabelLayoutOutput)
    (input : LabelLayoutInput) : LabelLayoutOutput :=
  match acceptedPlacement bounds placed input with
  | some candidate => candidate
  | none => fallbackPlacement bounds input (outwardFor bounds input)

/-- The sort comparator of `layoutLabels`: priority descending, near-ties
(within 0.03) broken by the id hash. -/
def layoutCmp (a b : LabelLayoutInput) : ℚ :=
  let diff := b.priority - a.priority
  if 3/100 < |diff| then diff
  else ((hashText a.id : ℤ) - (hashText b.id : ℤ) : ℤ)

/-- The sorted, truncated candidate list. -/
def sortedCandidates (inputs : List LabelLayoutInput) (maxLabels : Nat) :
    List LabelLayoutInput :=
  (jsSortBy (fun a b => decide (layoutCmp a b ≤ 0)) inputs).take maxLabels

/-- The main placement loop. -/
def layoutPlace (bounds : Bounds) : List LabelLayoutOutput → List LabelLayoutInput →
    List LabelLayoutOutput
  | placed, [] => placed
  | placed, input :: rest =>
    layoutPlace bounds (placed ++ [placeLabel bounds placed input]) rest

/-- `layoutLabels`. -/
def layoutLabels (inputs : List LabelLayoutInput) (bounds : Bounds)
    (maxLabels : Nat) : List LabelLayoutOutput :=
  layoutPlace bounds [] (sortedCandidates inputs maxLabels)

/-! ### Concrete instances for the claims -/

/-- The example anchor of the specification's fusion scenario. -/
def c6Anchor : SemanticAnchor :=
  { id := "emo-happy-mouth-1", label := "happy", kind := .emotion,
    facialPart := .mouth, point := (700, 500), confidence := 0.8,
    intensity := none, explanation := none }

/-- First tracking frame: landmark 13 at `[705, 498]`, the mouth part not
tracked, the other landmarks far away. -/
def c6Frame1 : TrackedFaceFrame :=
  { timestampMs := 0
    points := (List.range 13).map (fun i => { index := i, point := (0, 0) }) ++
      [{ index := 13, point := (705, 498) }]
    parts := fun _ => none
    faceBox := none
    confidence := 1 }

/-- Next tracking frame: landmark 13 has moved to `[650, 480]`. -/
def c6Frame2 : TrackedFaceFrame :=
  { timestampMs := 500
    points := (List.range 13).map (fun i => { index := i, point := (0, 0) }) ++
      [{ index := 13, point := (650, 480) }]
    parts := fun _ => none
    faceBox := none
    confidence := 1 }

/-- The binding map after `updateAnchors` on the first frame. -/
def c6State : FusionState :=
  updateAnchors defaultFusionConfig [] [c6Anchor] (some c6Frame1) 0

/-- Viewport for the layout counterexample. -/
def cexBounds : Bounds :=
  { width := 100, height := 100, padding := none, faceCenterX := none, faceCenterY := none }

/-- An 84×84 label that individually fits the 100×100 padded viewport. -/
def cexInputA : LabelLayoutInput :=
  { id := "a", text := "a", anchorX := 50, anchorY := 50, width := 84, height := 84,
    priority := 1, preferDistance := false }

/-- A second identical label with a different id. -/
def cexInputB : LabelLayoutInput :=
  { cexInputA with id := "b", text := "b" }

/-- Whether a two-element layout output overlaps (plain rectangles). -/
def pairOverlaps : List LabelLayoutOutput → Bool
  | [a, b] => intersects a b
  | _ => false

/-- The raw mid-lane response of the C2 counterexample: one emotion finding
naming its facial part "unknown" with point `[100,100]`, and a landmark
list naming "nose" at that very point. -/
def c2Raw : JVal :=
  .obj [
    ("emotions", .arr [.obj [
      ("emotion", .jstr "happy"),
      ("facialPart", .jstr "unknown"),
      ("point", .arr [.jnum 100, .jnum 100]),
      ("confidence", .jnum 0.9)]]),
    ("landmarks", .arr [.obj [
      ("name", .jstr "nose tip"),
      ("facialPart", .jstr "nose"),
      ("point", .arr [.jnum 100, .jnum 100]),
      ("confidence", .jnum 1)]])]

def c2Opts : AnalyzeOptions := { frameId := some 1, capturedAt := some 0 }

def c2Result : FastAnalysisResult := sanitizeFlashResult c2Raw c2Opts "m" 0

/-- Attempt outcomes for the C3 counterexample: the first candidate's gate
wait times out, the second candidate would succeed. -/
def c3Attempt (model : String) : AttemptOutcome :=
  if model = "model-a" then .gateTimeout else .success "ok"

/-! ### Supporting lemmas -/

theorem mem_orderedInsertJS {α : Type} (le : α → α → Bool) (a b : α)
    (l : List α) : b ∈ orderedInsertJS le a l ↔ b = a ∨ b ∈ l := by
  induction l with
  | nil => simp [orderedInsertJS]
  | cons c t ih =>
    by_cases h : le a c
    · simp [orderedInsertJS, h]
    · simp only [orderedInsertJS, h, Bool.false_eq_true, if_false, List.mem_cons, ih]
      tauto

theorem mem_jsSortBy {α : Type} (le : α → α → Bool) (a : α) (l : List α) :
    a ∈ jsSortBy le l ↔ a ∈ l := by
  induction l with
  | nil => simp [jsSortBy]
  | cons c t ih => simp [jsSortBy, mem_orderedInsertJS, ih]

/-- Without a collision gap the two intersection tests agree. -/
theorem intersectsWithGap_zero (a b : LabelLayoutOutput) :
    intersectsWithGap a b 0 = intersects a b := by
  simp [intersectsWithGap, intersects]

/-- Plain overlap implies overlap of the gap-inflated rectangles, for any
nonnegative gap; contrapositively a passed gap check rules plain overlap
out. -/
theorem intersects_of_gap (a b : LabelLayoutOutput) (gap : ℚ) (hg : 0 ≤ gap) :
    intersects a b = true → intersectsWithGap a b gap = true := by
  intro h
  simp only [intersects, Bool.and_eq_true, decide_eq_true_eq] at h
  simp only [intersectsWithGap, Bool.and_eq_true, decide_eq_true_eq]
  refine ⟨⟨⟨by linarith [h.1.1.1], by linarith [h.1.1.2]⟩, by linarith [h.1.2]⟩,
    by linarith [h.2]⟩

/-! ### Claims -/

/-- Claim C1, counterexample. Two identical 84×84 ordinary labels in a
100×100 viewport (default padding 8): each individually fits the padded
viewport, yet `layoutLabels` must clamp every candidate offset for the
second label onto the first one, the collision-checked search fails, and
the final fixed-offset fallback places it with no collision check — the
two returned rectangles coincide at (8,8) and intersect. This refutes
"the output contains no two intersecting padded rectangles" as stated. -/
theorem claim1_layout_overlap_counterexample :
    pairOverlaps (layoutLabels [cexInputA, cexInputB] cexBounds 2) = true ∧
    (layoutLabels [cexInputA, cexInputB] cexBounds 2).length = 2 ∧
    ((layoutLabels [cexInputA, cexInputB] cexBounds 2).map (fun o => (o.x, o.y))) =
      [((8 : ℚ), (8 : ℚ)), (8, 8)] ∧
    cexInputA.width ≤ cexBounds.width - 2 * 8 ∧
    cexInputA.height ≤ cexBounds.height - 2 * 8 ∧
    cexInputB.width ≤ cexBounds.width - 2 * 8 ∧
    cexInputB.height ≤ cexBounds.height - 2 * 8 := by
  decide

/-- Claim C2, counterexample. For `c2Raw` the claimed reassignment to the
nearest landmark's facial part does not happen: the sanitized finding is
assigned `faceCenter`, although the response's landmark list names `nose`
at exactly the finding's point and the sanitized landmark list is empty
(so `nearestLandmarkPart` could only answer `unknown`). -/
theorem claim2_flash_unknown_counterexample :
    (c2Result.emotions.map (fun e => e.facialPart)) = [.faceCenter] ∧
    c2Result.landmarks = [] ∧
    nearestLandmarkPart (100, 100) c2Result.landmarks = .unknown ∧
    (c2Result.semanticAnchors.map (fun a => a.facialPart)) = [.faceCenter] ∧
    FacialPartHint.faceCenter ≠ .nose ∧
    FacialPartHint.faceCenter ≠ .unknown := by
  decide

/-- Claim C2, amended: a mid-lane finding whose facial part parses to
"unknown" is reassigned by the sanitizer to `faceCenter` (and its point is
sanitized against the `faceCenter` default), not to a nearest-landmark
part. -/
theorem claim2_flash_unknown_to_faceCenter (item : JVal)
    (h : toFacialPart (jGet item "facialPart") = .unknown) :
    (sanitizeFlashEmotion item).facialPart = .faceCenter ∧
    (sanitizeFlashEmotion item).point =
      toPoint (jGet item "point") (defaultPointForPart .faceCenter) := by
  constructor
  · simp [sanitizeFlashEmotion, h]
  · simp [sanitizeFlashEmotion, h]

/-- Witness for the amended C2 theorem at a concrete raw finding. -/
theorem claim2_flash_unknown_to_faceCenter_witness :
    (sanitizeFlashEmotion (.obj [("facialPart", .jstr "unknown")])).facialPart =
      .faceCenter ∧
    (sanitizeFlashEmotion (.obj [("facialPart", .jstr "unknown")])).point =
      toPoint (jGet (.obj [("facialPart", .jstr "unknown")]) "point")
        (defaultPointForPart .faceCenter) :=
  claim2_flash_unknown_to_faceCenter (.obj [("facialPart", .jstr "unknown")]) (by decide)

/-- Claim C3, counterexample. With two candidate models where the first
one's gate wait times out and the second would succeed, the orchestrator
does NOT proceed to the second candidate: the gate-timeout error (thrown
by `acquireGate` before the `try` block) aborts the whole lane call. -/
theorem claim3_gate_timeout_counterexample :
    generateWithLaneFallback c3Attempt ["model-a", "model-b"] none =
      .error (.gateTimeout "model-a") ∧
    c3Attempt "model-b" = .success "ok" := by
  constructor
  · rfl
  · rfl

/-- Claim C3, amended: a gate-wait timeout for a candidate model aborts the
whole lane call immediately — no later candidate is attempted — matching
the error-handling section that lists gate-wait-exceeded among the
failures that abort the whole lane call. -/
theorem claim3_gate_timeout_aborts (attempt : String → AttemptOutcome)
    (model : String) (rest : List String) (lastError : Option (Option ErrObj))
    (h : attempt model = .gateTimeout) :
    generateWithLaneFallback attempt (model :: rest) lastError =
      .error (.gateTimeout model) := by
  simp [generateWithLaneFallback, h]

/-- Witness for the amended C3 theorem on a concrete attempt function. -/
theorem claim3_gate_timeout_aborts_witness :
    generateWithLaneFallback c3Attempt ["model-a", "other"] none =
      .error (.gateTimeout "model-a") :=
  claim3_gate_timeout_aborts c3Attempt "model-a" ["other"] none (by rfl)

/-- Claim C6: the specification's worked fusion scenario. The anchor
reported at `[700,500]` (mouth not tracked) is bound to landmark 13 at
`[705,498]` with stored offset `[-5,2]`; after landmark 13 moves to
`[650,480]`, `project` returns `[645,482]` — landmark point plus offset —
and not the original reported point. -/
theorem claim6_offset_projection_scenario :
    stateGet c6State "emo-happy-mouth-1" =
      some { anchor := c6Anchor, landmarkIndex := some 13,
             offset := some (-5, 2), lastSeenAt := 0 } ∧
    ((project defaultFusionConfig c6State (some c6Frame2) 1000 false).2.map
      (fun fa => fa.projectedPoint)) = [((645 : ℚ), (482 : ℚ))] ∧
    ¬ ((project defaultFusionConfig c6State (some c6Frame2) 1000 false).2.map
      (fun fa => fa.projectedPoint)) = [((700 : ℚ), (500 : ℚ))] := by
  decide

/-- Claim C7: with no intervening `updateAnchors`, a second `project` call
with the same frame, timestamp and options returns the same binding map
and the same output list — the first call's pruning removed exactly the
entries the age filter rejects, so filtering again changes nothing. -/
theorem claim7_project_idempotent (cfg : FusionConfig) (st : FusionState)
    (frame : Option TrackedFaceFrame) (now : ℚ) (preserveStale : Bool) :
    project cfg (project cfg st frame now preserveStale).1 frame now preserveStale =
      project cfg st frame now preserveStale := by
  simp [project, List.filter_filter]

/-- Claim C5: every fused anchor returned by `project` whose facial part is
named (not "unknown") and tracked in the frame's part map is projected to
exactly that part's tracked point, whatever landmark index or offset its
binding stores. -/
theorem claim5_named_part_priority (cfg : FusionConfig) (st : FusionState)
    (f : TrackedFaceFrame) (now : ℚ) (preserveStale : Bool)
    (fa : FusedAnchor) (p : NormalizedPoint)
    (hmem : fa ∈ (project cfg st (some f) now preserveStale).2)
    (hpart : fa.facialPart ≠ .unknown)
    (htrack : f.parts fa.facialPart = some p) :
    fa.projectedPoint = p := by
  unfold project at hmem
  rw [mem_jsSortBy] at hmem
  obtain ⟨e, he, rfl⟩ := List.mem_map.mp hmem
  show projectBinding (some f) e.2 = p
  have hfp : (emitFusedAnchor cfg (some f) now e.2).facialPart =
      e.2.anchor.facialPart := rfl
  rw [hfp] at hpart htrack
  simp [projectBinding, hpart, htrack]

/-- Anchor for the C5 witness: named part `mouth`, with a stored landmark
index and a nonzero stored offset that must both be ignored. -/
def c5Anchor : SemanticAnchor :=
  { id := "emo-calm-mouth-1", label := "calm", kind := .emotion,
    facialPart := .mouth, point := (1, 2), confidence := 0.5,
    intensity := none, explanation := none }

def c5Binding : AnchorBinding :=
  { anchor := c5Anchor, landmarkIndex := some 0, offset := some (7, 9),
    lastSeenAt := 0 }

def c5Frame : TrackedFaceFrame :=
  { timestampMs := 0
    points := [{ index := 0, point := (50, 60) }]
    parts := fun part => if part = .mouth then some (300, 400) else none
    faceBox := none
    confidence := 1 }

def c5Fused : FusedAnchor :=
  { toSemanticAnchor := c5Anchor, projectedPoint := (300, 400), stale := false }

/-- Witness for C5 at a concrete engine state: despite landmark 0 sitting at
`(50,60)` with stored offset `(7,9)`, the mouth anchor projects to the
tracked mouth point `(300,400)`. -/
theorem claim5_named_part_priority_witness : c5Fused.projectedPoint = (300, 400) :=
  claim5_named_part_priority defaultFusionConfig [("emo-calm-mouth-1", c5Binding)]
    c5Frame 5 false c5Fused (300, 400) (by decide) (by decide) (by decide)

/-- `buildEmotionAnchor` over an empty landmark list keeps the emotion's own
facial part: when the part is "unknown", `nearestLandmarkPart` over the
empty list answers "unknown" as well. -/
theorem buildEmotionAnchor_empty_facialPart (counters : List (String × Nat))
    (e : FastEmotion) :
    ((buildEmotionAnchor [] counters e).1).facialPart = e.facialPart ∧
    ((buildEmotionAnchor [] counters e).1).kind = .emotion := by
  by_cases h : e.facialPart = .unknown <;>
    simp [buildEmotionAnchor, nearestLandmarkPart, h]

/-- Characterization of the emotion-anchor fold of `buildFastAnchors` with
an empty landmark list. -/
theorem buildFastAnchors_fold_empty (emotions : List FastEmotion)
    (acc : List SemanticAnchor) (counters : List (String × Nat)) :
    ((emotions.foldl
      (fun (acc2 : List SemanticAnchor × List (String × Nat)) emotion =>
        let built := buildEmotionAnchor [] acc2.2 emotion
        (acc2.1 ++ [built.1], built.2))
      (acc, counters)).1.map (fun a => a.kind) =
        acc.map (fun a => a.kind) ++ List.replicate emotions.length .emotion) ∧
    ((emotions.foldl
      (fun (acc2 : List SemanticAnchor × List (String × Nat)) emotion =>
        let built := buildEmotionAnchor [] acc2.2 emotion
        (acc2.1 ++ [built.1], built.2))
      (acc, counters)).1.map (fun a => a.facialPart) =
        acc.map (fun a => a.facialPart) ++ emotions.map (fun e => e.facialPart)) := by
  induction emotions generalizing acc counters with
  | nil => simp
  | cons e rest ih =>
    have hk := (ih (acc ++ [(buildEmotionAnchor [] counters e).1])
      (buildEmotionAnchor [] counters e).2).1
    have hf := (ih (acc ++ [(buildEmotionAnchor [] counters e).1])
      (buildEmotionAnchor [] counters e).2).2
    have hb := buildEmotionAnchor_empty_facialPart counters e
    constructor
    · simp only [List.foldl_cons, hk, List.map_append, List.map_cons, List.map_nil,
        hb.2, List.length_cons, List.replicate_succ]
      simp [List.append_assoc]
    · simp only [List.foldl_cons, hf, List.map_append, List.map_cons, List.map_nil,
        hb.1, List.map_cons]
      simp [List.append_assoc]

/-- `buildFastAnchors` over an empty landmark list: one anchor per emotion,
all of kind `emotion`, each keeping its emotion's facial part. -/
theorem buildFastAnchors_empty (emotions : List FastEmotion) :
    (buildFastAnchors emotions []).map (fun a => a.kind) =
      List.replicate emotions.length .emotion ∧
    (buildFastAnchors emotions []).map (fun a => a.facialPart) =
      emotions.map (fun e => e.facialPart) := by
  have h := buildFastAnchors_fold_empty emotions [] []
  constructor
  · simpa [buildFastAnchors] using h.1
  · simpa [buildFastAnchors] using h.2

/-- Claim C10 (implicit): for every raw input the flash sanitizer's landmark
list is empty; consequently its semantic anchors come only from the (at
most 6) emotions, they are all of kind `emotion`, and every anchor keeps
its emotion's own facial part — never one resolved from the landmark
list. -/
theorem claim10_flash_no_landmark_anchors (raw : JVal) (options : AnalyzeOptions)
    (model : String) (now : ℚ) :
    (sanitizeFlashResult raw options model now).landmarks = [] ∧
    (sanitizeFlashResult raw options model now).emotions.length ≤ 6 ∧
    ((sanitizeFlashResult raw options model now).semanticAnchors.map
      (fun a => a.kind)) =
      List.replicate (sanitizeFlashResult raw options model now).emotions.length
        .emotion ∧
    ((sanitizeFlashResult raw options model now).semanticAnchors.map
      (fun a => a.facialPart)) =
      ((sanitizeFlashResult raw options model now).emotions.map
        (fun e => e.facialPart)) := by
  by_cases hg : truthy raw ∧ isObjLike raw
  · have hb := fun emotions => buildFastAnchors_empty emotions
    unfold sanitizeFlashResult
    rw [if_neg (by simpa using hg)]
    refine ⟨rfl, ?_, ?_, ?_⟩
    · match harr : jGet raw "emotions" with
      | .arr items =>
        simp only [flashEmotions, harr]
        simp [List.length_take_le]
      | .jnull | .jundefined | .jbool _ | .jnum _ | .jnan | .jstr _ | .obj _ =>
        simp [flashEmotions, harr]
    · exact (hb _).1
    · exact (hb _).2
  · unfold sanitizeFlashResult
    rw [if_pos (by simpa using hg)]
    simp [toDefaultFlashResult]

/-! ### Documented numeric bounds (for the sanitizer-totality claim) -/

abbrev confidenceBounded (q : ℚ) : Prop := 0 ≤ q ∧ q ≤ 1

abbrev coordBounded (q : ℚ) : Prop := 0 ≤ q ∧ q ≤ 1000

abbrev pointBounded (p : NormalizedPoint) : Prop := coordBounded p.1 ∧ coordBounded p.2

abbrev boxBounded (b : NormalizedFaceBox) : Prop :=
  coordBounded b.1 ∧ coordBounded b.2.1 ∧ coordBounded b.2.2.1 ∧ coordBounded b.2.2.2

abbrev angleBounded (q : ℚ) : Prop := -90 ≤ q ∧ q ≤ 90

abbrev poseBounded (hp : HeadPose) : Prop :=
  angleBounded hp.pitch ∧ angleBounded hp.yaw ∧ angleBounded hp.roll

/-- Structural validity of a lite result: all confidences in [0,1], at most
6 candidates, box coordinates in [0,1000], pose angles in [-90,90]. -/
abbrev liteResultValid (r : LiteAnalysisResult) : Prop :=
  confidenceBounded r.confidence ∧ confidenceBounded r.primaryConfidence ∧
  r.candidates.length ≤ 6 ∧ (∀ c ∈ r.candidates, confidenceBounded c.confidence) ∧
  (∀ b ∈ r.faceBox, boxBounded b) ∧ (∀ hp ∈ r.headPose, poseBounded hp)

/-- Structural validity of a flash result. -/
abbrev flashResultValid (r : FastAnalysisResult) : Prop :=
  confidenceBounded r.confidence ∧ r.emotions.length ≤ 6 ∧
  (∀ e ∈ r.emotions, confidenceBounded e.confidence ∧ pointBounded e.point) ∧
  (∀ b ∈ r.faceBox, boxBounded b) ∧ (∀ hp ∈ r.headPose, poseBounded hp)

/-- Structural validity of a depth result. -/
abbrev depthResultValid (r : DepthAnalysisResult) : Prop :=
  confidenceBounded r.confidence ∧ r.insights.length ≤ 10 ∧
  (∀ i ∈ r.insights, confidenceBounded i.confidence ∧ pointBounded i.point)

theorem clampQ_bounds (v lo hi : ℚ) (h : lo ≤ hi) :
    lo ≤ clampQ v lo hi ∧ clampQ v lo hi ≤ hi :=
  ⟨le_min h (le_max_left lo v), min_le_left hi _⟩

theorem toConfidence_bounded (v : JVal) (fb : ℚ) (h0 : 0 ≤ fb) (h1 : fb ≤ 1) :
    confidenceBounded (toConfidence v fb) := by
  cases v <;> simp only [toConfidence, confidenceBounded]
  case jnull | jundefined | jbool | jnan | arr | obj => exact ⟨h0, h1⟩
  case jnum q => exact clampQ_bounds q 0 1 (by norm_num)
  case jstr s =>
    split
    · split
      · exact clampQ_bounds _ 0 1 (by norm_num)
      · exact ⟨h0, h1⟩
    · exact ⟨h0, h1⟩

theorem clamp_coordBounded (v : ℚ) : coordBounded (clampQ v 0 1000) :=
  clampQ_bounds v 0 1000 (by norm_num)

theorem clamp_angleBounded (v : ℚ) : angleBounded (clampQ v (-90) 90) :=
  clampQ_bounds v (-90) 90 (by norm_num)

theorem toPoint_bounded (v : JVal) (fb : NormalizedPoint) (h : pointBounded fb) :
    pointBounded (toPoint v fb) := by
  cases v <;> simp only [toPoint]
  case jnull | jundefined | jbool | jnan | jstr | jnum | obj => exact h
  case arr items =>
    by_cases hlen : items.length < 2
    · rw [if_pos hlen]
      exact h
    · rw [if_neg hlen]
      constructor
      · rcases (items[0]?).bind asNum with _ | q
        · exact h.1
        · exact clamp_coordBounded _
      · rcases (items[1]?).bind asNum with _ | q
        · exact h.2
        · exact clamp_coordBounded _

theorem defaultPointForPart_bounded (part : FacialPartHint) :
    pointBounded (defaultPointForPart part) := by
  cases part <;> decide

theorem toFaceBox_bounded (v : JVal) (b : NormalizedFaceBox)
    (h : toFaceBox v = some b) : boxBounded b := by
  cases v <;> simp only [toFaceBox] at h <;> try cases h
  case arr items =>
    by_cases hlen : items.length < 4
    · rw [if_pos hlen] at h
      cases h
    · rw [if_neg hlen] at h
      split at h
      · cases h
      · injection h with hb
        subst hb
        refine ⟨?_, ?_, ?_, ?_⟩
        · rcases (items[0]?).bind asNum with _ | q
          · exact ⟨le_refl 0, by norm_num⟩
          · exact clamp_coordBounded _
        · rcases (items[1]?).bind asNum with _ | q
          · exact ⟨le_refl 0, by norm_num⟩
          · exact clamp_coordBounded _
        · rcases (items[2]?).bind asNum with _ | q
          · exact ⟨by norm_num, le_refl 1000⟩
          · exact clamp_coordBounded _
        · rcases (items[3]?).bind asNum with _ | q
          · exact ⟨by norm_num, le_refl 1000⟩
          · exact clamp_coordBounded _

theorem toHeadPose_bounded (v : JVal) (hp : HeadPose) (h : toHeadPose v = some hp) :
    poseBounded hp := by
  unfold toHeadPose at h
  split at h
  · injection h with hhp
    subst hhp
    refine ⟨?_, ?_, ?_⟩
    · rcases asNum (jGet v "pitch") with _ | n
      · exact ⟨by norm_num, by norm_num⟩
      · exact clamp_angleBounded _
    · rcases asNum (jGet v "yaw") with _ | n
      · exact ⟨by norm_num, by norm_num⟩
      · exact clamp_angleBounded _
    · rcases asNum (jGet v "roll") with _ | n
      · exact ⟨by norm_num, by norm_num⟩
      · exact clamp_angleBounded _
  · cases h

theorem liteCandidates_bounded (raw : JVal) :
    ∀ c ∈ liteCandidates raw, confidenceBounded c.confidence := by
  intro c hc
  unfold liteCandidates at hc
  split at hc
  · obtain ⟨item, hitem, rfl⟩ := List.mem_map.mp hc
    exact toConfidence_bounded _ _ (by norm_num) (by norm_num)
  · exact absurd hc (by simp)

theorem liteCandidates_length (raw : JVal) : (liteCandidates raw).length ≤ 6 := by
  unfold liteCandidates
  split
  · simp [List.length_take_le]
  · simp

theorem flashEmotions_bounded (raw : JVal) :
    ∀ e ∈ flashEmotions raw, confidenceBounded e.confidence ∧ pointBounded e.point := by
  intro e he
  unfold flashEmotions at he
  split at he
  · obtain ⟨item, hitem, rfl⟩ := List.mem_map.mp he
    refine ⟨toConfidence_bounded _ _ (by norm_num) (by norm_num), ?_⟩
    exact toPoint_bounded _ _ (defaultPointForPart_bounded _)
  · exact absurd he (by simp)

theorem flashEmotions_length (raw : JVal) : (flashEmotions raw).length ≤ 6 := by
  unfold flashEmotions
  split
  · simp [List.length_take_le]
  · simp

theorem depthInsights_bounded (raw : JVal) :
    ∀ i ∈ depthInsights raw, confidenceBounded i.confidence ∧ pointBounded i.point := by
  intro i hi
  unfold depthInsights at hi
  split at hi
  · obtain ⟨item, hitem, rfl⟩ := List.mem_map.mp hi
    refine ⟨toConfidence_bounded _ _ (by norm_num) (by norm_num), ?_⟩
    exact toPoint_bounded _ _ ⟨⟨by norm_num, by norm_num⟩, ⟨by norm_num, by norm_num⟩⟩
  · exact absurd hi (by simp)

theorem depthInsights_length (raw : JVal) : (depthInsights raw).length ≤ 10 := by
  unfold depthInsights
  split
  · simp [List.length_take_le]
  · simp

theorem liteFrameConfidence_bounded (raw : JVal) :
    confidenceBounded (liteFrameConfidence raw) :=
  toConfidence_bounded _ _ (by split <;> norm_num) (by split <;> norm_num)

theorem litePrimaryConfidence_bounded (raw : JVal) :
    confidenceBounded (litePrimaryConfidence raw) := by
  unfold litePrimaryConfidence
  refine toConfidence_bounded _ _ ?_ ?_ <;>
  · rcases hfind : litePrimaryCandidate raw with _ | c
    · rcases hhead : (liteCandidates raw).head? with _ | c2
      · first
        | exact (liteFrameConfidence_bounded raw).1
        | exact (liteFrameConfidence_bounded raw).2
      · have hmem : c2 ∈ liteCandidates raw := by
          cases hcs : liteCandidates raw with
          | nil => rw [hcs] at hhead; cases hhead
          | cons c3 t =>
            rw [hcs] at hhead
            injection hhead with hh
            rw [hh]
            exact List.mem_cons_self c2 t
        first
        | exact (liteCandidates_bounded raw c2 hmem).1
        | exact (liteCandidates_bounded raw c2 hmem).2
    · have hmem : c ∈ liteCandidates raw :=
        List.mem_of_find?_eq_some hfind
      first
      | exact (liteCandidates_bounded raw c hmem).1
      | exact (liteCandidates_bounded raw c hmem).2

/-- Claim C4: each lane sanitizer is total (a plain function in this
embedding) and, for every raw input, returns a result with every numeric
field inside its documented bound — confidences in [0,1], box and point
coordinates in [0,1000], head-pose angles in [-90,90], at most 6 emotion
candidates / emotions and at most 10 deep-lane insights. -/
theorem claim4_sanitizer_totality (raw : JVal) (options : AnalyzeOptions)
    (model : String) (now : ℚ) :
    liteResultValid (sanitizeLiteResult raw options model now) ∧
    flashResultValid (sanitizeFlashResult raw options model now) ∧
    depthResultValid (sanitizeDepthResult raw options model now) := by
  refine ⟨?_, ?_, ?_⟩
  · by_cases hg : truthy raw ∧ isObjLike raw
    · unfold sanitizeLiteResult
      rw [if_neg (by simpa using hg)]
      exact ⟨liteFrameConfidence_bounded raw, litePrimaryConfidence_bounded raw,
        liteCandidates_length raw, liteCandidates_bounded raw,
        fun b hb => toFaceBox_bounded _ b hb,
        fun hp hhp => toHeadPose_bounded _ hp hhp⟩
    · unfold sanitizeLiteResult
      rw [if_pos (by simpa using hg)]
      exact ⟨⟨by norm_num [toDefaultLiteResult], by norm_num [toDefaultLiteResult]⟩,
        ⟨by norm_num [toDefaultLiteResult], by norm_num [toDefaultLiteResult]⟩,
        by simp [toDefaultLiteResult], by simp [toDefaultLiteResult],
        by simp [toDefaultLiteResult], by simp [toDefaultLiteResult]⟩
  · by_cases hg : truthy raw ∧ isObjLike raw
    · unfold sanitizeFlashResult
      rw [if_neg (by simpa using hg)]
      exact ⟨toConfidence_bounded _ _ (by split <;> norm_num) (by split <;> norm_num),
        flashEmotions_length raw, flashEmotions_bounded raw,
        fun b hb => toFaceBox_bounded _ b hb,
        fun hp hhp => toHeadPose_bounded _ hp hhp⟩
    · unfold sanitizeFlashResult
      rw [if_pos (by simpa using hg)]
      exact ⟨⟨by norm_num [toDefaultFlashResult], by norm_num [toDefaultFlashResult]⟩,
        by simp [toDefaultFlashResult], by simp [toDefaultFlashResult],
        by simp [toDefaultFlashResult], by simp [toDefaultFlashResult]⟩
  · by_cases hg : truthy raw ∧ isObjLike raw
    · unfold sanitizeDepthResult
      rw [if_neg (by simpa using hg)]
      exact ⟨toConfidence_bounded _ _ (by split <;> norm_num) (by split <;> norm_num),
        depthInsights_length raw, depthInsights_bounded raw⟩
    · unfold sanitizeDepthResult
      rw [if_pos (by simpa using hg)]
      exact ⟨⟨by norm_num [toDefaultDepthResult], by norm_num [toDefaultDepthResult]⟩,
        by simp [toDefaultDepthResult], by simp [toDefaultDepthResult]⟩

/-- After any state whose `lastCompletedAt` is at least `T`, provided every
later event carries a timestamp of at least `T`, an acquisition can only be
granted at a time at least `T + cooldown`. -/
theorem runGate_release_lower (cd : ℚ) :
    ∀ (mid : List GateEvent) (s : GateState) (T t : ℚ) (final : GateState),
      T ≤ s.lastCompletedAt →
      (∀ e ∈ mid, T ≤ e.time) →
      runGate cd s (mid ++ [.acquire t]) = some final →
      T + cd ≤ t := by
  intro mid
  induction mid with
  | nil =>
    intro s T t final hlast htimes hrun
    simp only [List.nil_append, runGate] at hrun
    by_cases hin : s.inFlight
    · simp [gateStep, hin] at hrun
    · by_cases hcd : cd ≤ t - s.lastCompletedAt
      · linarith
      · simp [gateStep, hin, hcd] at hrun
  | cons e rest ih =>
    intro s T t final hlast htimes hrun
    simp only [List.cons_append, runGate] at hrun
    cases e with
    | acquire u =>
      by_cases hin : s.inFlight
      · simp [gateStep, hin] at hrun
      · by_cases hcd : cd ≤ u - s.lastCompletedAt
        · simp only [gateStep, hin, Bool.false_eq_true, if_false, hcd, if_true] at hrun
          exact ih _ T t final (by simpa using hlast)
            (fun e2 he2 => htimes e2 (List.mem_cons_of_mem _ he2)) hrun
        · simp [gateStep, hin, hcd] at hrun
    | release u =>
      simp only [gateStep] at hrun
      exact ih _ T t final
        (by simpa using htimes (.release u) (List.mem_cons_self _ _))
        (fun e2 he2 => htimes e2 (List.mem_cons_of_mem _ he2)) hrun

/-- Claim C8: in every valid run of the gate transition system, after a
release at time `T`, an acquisition for the same model granted after
intermediate events with timestamps of at least `T` happens no earlier
than `T + cooldownForModel model` — acquisition is granted only when the
gate is free and the per-model tiered cooldown has elapsed since
`lastCompletedAt`. -/
theorem claim8_cooldown_respected (model : String) (s : GateState)
    (mid : List GateEvent) (T t : ℚ) (final : GateState)
    (hrun : runGate (cooldownForModel model) s
      (GateEvent.release T :: (mid ++ [GateEvent.acquire t])) = some final)
    (htimes : ∀ e ∈ mid, T ≤ e.time) :
    T + cooldownForModel model ≤ t := by
  simp only [runGate, gateStep] at hrun
  exact runGate_release_lower (cooldownForModel model) mid
    { inFlight := false, lastCompletedAt := T } T t final (le_refl T) htimes hrun

/-- Witness for C8: for the deep-lane model (45 s cooldown), a release at
100 followed by an acquisition at 45100 is a valid run, and indeed
`100 + 45000 ≤ 45100`. -/
theorem claim8_cooldown_respected_witness :
    (100 : ℚ) + cooldownForModel "gemini-3.1-pro-preview" ≤ 45100 :=
  claim8_cooldown_respected "gemini-3.1-pro-preview" { inFlight := true, lastCompletedAt := 0 }
    [] 100 45100 { inFlight := true, lastCompletedAt := 100 } (by decide) (by decide)

/-- Claim C9: whenever the orchestrated generation for a lane fails with any
error (gate-wait timeout, timeout, quota, network - whatever
`generateWithLaneFallback` surfaces), the lane's analyze function returns
the lane's safe default result: no face detected, empty candidate /
emotion / anchor / insight lists, confidence 0. -/
theorem claim9_lane_failure_safe_default
    (attempt : String → AttemptOutcome) (sticky : Option String)
    (options : AnalyzeOptions) (parse : String → Option JVal) (now : ℚ)
    (eL eF eD : LaneError)
    (hL : generateWithLaneFallback attempt
      (candidateModels sticky LITE_MODEL LITE_FALLBACK_MODELS) none = .error eL)
    (hF : generateWithLaneFallback attempt
      (candidateModels sticky FLASH_MODEL FLASH_FALLBACK_MODELS) none = .error eF)
    (hD : generateWithLaneFallback attempt
      (candidateModels sticky PRO_MODEL PRO_FALLBACK_MODELS) none = .error eD) :
    (analyzeLitePrimaryEmotion attempt sticky options parse now =
        toDefaultLiteResult options now (sticky.getD LITE_MODEL) ∧
      (analyzeLitePrimaryEmotion attempt sticky options parse now).faceDetected = false ∧
      (analyzeLitePrimaryEmotion attempt sticky options parse now).confidence = 0 ∧
      (analyzeLitePrimaryEmotion attempt sticky options parse now).candidates = []) ∧
    (analyzeFlashInsights attempt sticky options parse now =
        toDefaultFlashResult options now (sticky.getD FLASH_MODEL) ∧
      (analyzeFlashInsights attempt sticky options parse now).faceDetected = false ∧
      (analyzeFlashInsights attempt sticky options parse now).confidence = 0 ∧
      (analyzeFlashInsights attempt sticky options parse now).emotions = [] ∧
      (analyzeFlashInsights attempt sticky options parse now).semanticAnchors = []) ∧
    (analyzeDepthInsights attempt sticky options parse now =
        toDefaultDepthResult options now (sticky.getD PRO_MODEL) ∧
      (analyzeDepthInsights attempt sticky options parse now).confidence = 0 ∧
      (analyzeDepthInsights attempt sticky options parse now).insights = []) := by
  have h1 : analyzeLitePrimaryEmotion attempt sticky options parse now =
      toDefaultLiteResult options now (sticky.getD LITE_MODEL) := by
    simp [analyzeLitePrimaryEmotion, hL]
  have h2 : analyzeFlashInsights attempt sticky options parse now =
      toDefaultFlashResult options now (sticky.getD FLASH_MODEL) := by
    simp [analyzeFlashInsights, hF]
  have h3 : analyzeDepthInsights attempt sticky options parse now =
      toDefaultDepthResult options now (sticky.getD PRO_MODEL) := by
    simp [analyzeDepthInsights, hD]
  refine ⟨⟨h1, ?_, ?_, ?_⟩, ⟨h2, ?_, ?_, ?_, ?_⟩, ⟨h3, ?_, ?_⟩⟩ <;>
    simp [h1, h2, h3, toDefaultLiteResult, toDefaultFlashResult, toDefaultDepthResult]

/-- Attempt function for the C9 witness: every model fails with a
non-object error (e.g. a network failure), which is not eligible for
model fallback. -/
def c9Attempt (_model : String) : AttemptOutcome := .genFailure none

def c9Opts : AnalyzeOptions := { frameId := none, capturedAt := none }

/-- Witness for C9: with every candidate failing, each lane returns its
safe default stamped with the preferred model. -/
theorem claim9_lane_failure_safe_default_witness :
    analyzeLitePrimaryEmotion c9Attempt none c9Opts (fun _ => none) 0 =
      toDefaultLiteResult c9Opts 0 LITE_MODEL ∧
    analyzeFlashInsights c9Attempt none c9Opts (fun _ => none) 0 =
      toDefaultFlashResult c9Opts 0 FLASH_MODEL ∧
    analyzeDepthInsights c9Attempt none c9Opts (fun _ => none) 0 =
      toDefaultDepthResult c9Opts 0 PRO_MODEL := by
  have h := claim9_lane_failure_safe_default c9Attempt none c9Opts (fun _ => none) 0
    (.generation none) (.generation none) (.generation none) (by rfl) (by rfl) (by rfl)
  exact ⟨h.1.1, h.2.1.1, h.2.2.1⟩

/-- A placement passing the stage-1 collision check overlaps no
already-placed box. -/
theorem stage1Collides_no_overlap (placed : List LabelLayoutOutput)
    (input : LabelLayoutInput) (c : LabelLayoutOutput)
    (h : stage1Collides placed input c = false) :
    ∀ e ∈ placed, intersects e c = false := by
  intro e he
  unfold stage1Collides at h
  by_cases hpd : input.preferDistance
  · simp only [hpd, if_true] at h
    have h10 : ((0 : ℚ) < 10) = True := by norm_num
    simp only [h10, if_true] at h
    have hany := List.any_eq_false.mp h e he
    cases hic : intersects e c
    · rfl
    · exact absurd (intersects_of_gap e c 10 (by norm_num) hic) hany
  · simp only [hpd, Bool.false_eq_true, if_false] at h
    have h0 : ¬ ((0 : ℚ) < 0) := by norm_num
    simp only [h0, if_false] at h
    simpa using List.any_eq_false.mp h e he

theorem findStage1_no_overlap (bounds : Bounds) (placed : List LabelLayoutOutput)
    (input : LabelLayoutInput) (outwardDirection : Option (ℚ × ℚ)) :
    ∀ (offsets : List (ℚ × ℚ)) (c : LabelLayoutOutput),
      findStage1 bounds placed input outwardDirection offsets = some c →
      ∀ e ∈ placed, intersects e c = false := by
  intro offsets
  induction offsets with
  | nil =>
    intro c h e he
    cases h
  | cons o rest ih =>
    intro c h e he
    simp only [findStage1] at h
    split at h
    · exact ih c h e he
    · split at h
      · exact ih c h e he
      · next hcol =>
        injection h with hc
        subst hc
        exact stage1Collides_no_overlap placed input _ (by simpa using hcol) e he

/-- A successful pass of the relaxed retry loop (gap 6) never overlaps an
already-placed box either. -/
theorem findStage2_no_overlap (bounds : Bounds) (placed : List LabelLayoutOutput)
    (input : LabelLayoutInput) :
    ∀ (offsets : List (ℚ × ℚ)) (c : LabelLayoutOutput),
      findStage2 bounds placed input offsets = some c →
      ∀ e ∈ placed, intersects e c = false := by
  intro offsets
  induction offsets with
  | nil =>
    intro c h e he
    cases h
  | cons o rest ih =>
    intro c h e he
    simp only [findStage2] at h
    split at h
    · exact ih c h e he
    · next hcol =>
      injection h with hc
      subst hc
      have hany := List.any_eq_false.mp (by simpa using hcol) e he
      cases hic : intersects e (attemptAt bounds input o)
      · rfl
      · exact absurd (intersects_of_gap e (attemptAt bounds input o) 6
          (by norm_num) hic) hany

/-- Claim C1, amended: whenever a label's position is produced by the
collision-checked search (`acceptedPlacement`, the two offset loops), the
chosen box overlaps no previously placed box; `layoutLabels` places each
label this way except when both loops fail, in which case the final
fixed-offset / radial fallback performs no collision check and may overlap
(see the counterexample). -/
theorem claim1_layout_accepted_no_overlap (bounds : Bounds)
    (placed : List LabelLayoutOutput) (input : LabelLayoutInput)
    (c : LabelLayoutOutput)
    (h : acceptedPlacement bounds placed input = some c) :
    placeLabel bounds placed input = c ∧ ∀ e ∈ placed, intersects e c = false := by
  constructor
  · unfold placeLabel
    rw [h]
  · simp only [acceptedPlacement] at h
    cases h1 : findStage1 bounds placed input (outwardFor bounds input)
        (offsetsFor bounds input) with
    | some c2 =>
      rw [h1] at h
      injection h with hc
      subst hc
      exact findStage1_no_overlap bounds placed input _ _ c2 h1
    | none =>
      rw [h1] at h
      cases ho : outwardFor bounds input with
      | none =>
        rw [ho] at h
        cases h
      | some d =>
        rw [ho] at h
        exact findStage2_no_overlap bounds placed input _ c h

/-- Already-placed box for the C1-amended witness. -/
def c1wPlacedBox : LabelLayoutOutput :=
  { id := "p", text := "p", anchorX := 8, anchorY := 8, width := 20, height := 20,
    priority := 1, preferDistance := false, x := 8, y := 8 }

def c1wBounds : Bounds :=
  { width := 400, height := 400, padding := none, faceCenterX := none, faceCenterY := none }

def c1wInput : LabelLayoutInput :=
  { id := "q", text := "q", anchorX := 200, anchorY := 200, width := 20, height := 20,
    priority := 1, preferDistance := false }

/-- The placement the collision-checked search accepts for `c1wInput`. -/
def c1wOut : LabelLayoutOutput :=
  { id := "q", text := "q", anchorX := 200, anchorY := 200, width := 20, height := 20,
    priority := 1, preferDistance := false, x := 214, y := 182 }

/-- Witness for the amended C1 theorem at a concrete accepted placement. -/
theorem claim1_layout_accepted_no_overlap_witness :
    placeLabel c1wBounds [c1wPlacedBox] c1wInput = c1wOut ∧
    intersects c1wPlacedBox c1wOut = false := by
  have h := claim1_layout_accepted_no_overlap c1wBounds [c1wPlacedBox] c1wInput c1wOut
    (by decide)
  exact ⟨h.1, h.2 c1wPlacedBox (by decide)⟩

end UFI
